import Mathlib

/-
Verification development for the `cache` Go library: a unified access layer
over Redis in single-node, cluster, and sentinel topologies.

The Go sources are shallowly embedded as executable Lean definitions:

* Go `string` is modelled as Lean `String`, `time.Duration` (int64
  nanoseconds) and Go integer fields as `Int`, nilable pointers as `Option`,
  and Go `error` as the inductive `GoError` whose constructors mirror the
  sentinel error values of `errors.go`.
* The external go-redis driver is out of repository scope; where a claim
  depends on it, its boundary behavior is modelled from the specification
  (definitions marked `Modelled from the spec`).
* Functions that in Go perform a network call are parametrized by the
  outcome of that call (a store snapshot, a ping result, a transport error),
  so that the repository's own control flow stays a pure function of those
  outcomes.

Lean names follow the Go names except where noted in the doc comment of the
definition (a few Go names collide with reserved word fragments).
-/

namespace Cache

/-! ## Durations (time.Duration in nanoseconds) -/

/-- One millisecond in nanoseconds (Go `time.Millisecond`). -/
def millisecond : Int := 1000000

/-- One second in nanoseconds (Go `time.Second`). -/
def second : Int := 1000000000

/-- One minute in nanoseconds (Go `time.Minute`). -/
def minute : Int := 60 * second

/-- One hour in nanoseconds (Go `time.Hour`). -/
def hour : Int := 60 * minute

/-! ## Errors (src/errors.go) -/

/-- Go `error` values that appear in the embedded code paths.  The `err*`
constructors are the sentinel errors declared in `src/errors.go`; `redisNil`
is the driver's distinguished nil-result error `redis.Nil`; `wrongType` is a
driver-side per-command error for an operation against a key of the wrong
type; `wrapped msg e` is `fmt.Errorf("msg: %w", e)`; `other` covers remaining
driver errors. -/
inductive GoError : Type
  | errInvalidMode
  | errMissingSingleConfig
  | errMissingClusterConfig
  | errMissingSentinelConfig
  | errMissingAddr
  | errMissingAddrs
  | errMissingMasterName
  | errKeyNotFound
  | redisNil
  | wrongType
  | wrapped (msg : String) (inner : GoError)
  | other (msg : String)
  deriving DecidableEq, Repr

/-! ## Configuration (src/config.go) -/

/-- `SingleConfig`: single-node mode settings. -/
structure SingleConfig : Type where
  addr : String
  db : Int
  deriving DecidableEq, Repr

/-- `ClusterConfig`: cluster mode settings. -/
structure ClusterConfig : Type where
  addrs : List String
  maxRedirects : Int
  readOnly : Bool
  routeByLatency : Bool
  routeRandomly : Bool
  deriving DecidableEq, Repr

/-- `SentinelConfig`: sentinel mode settings. -/
structure SentinelConfig : Type where
  addrs : List String
  masterName : String
  db : Int
  sentinelPassword : String
  deriving DecidableEq, Repr

/-- `TLSConfig`: TLS settings. -/
structure TLSConfig : Type where
  enabled : Bool
  insecureSkipVerify : Bool
  certFile : String
  keyFile : String
  caFile : String
  serverName : String
  deriving DecidableEq, Repr

/-- `CommonConfig`: settings shared by all modes.  The Go field `KeyPrefix`
is called `keyPfx` here. -/
structure CommonConfig : Type where
  password : String
  username : String
  poolSize : Int
  minIdleConns : Int
  maxIdleConns : Int
  connMaxAge : Int
  poolTimeout : Int
  idleTimeout : Int
  dialTimeout : Int
  readTimeout : Int
  writeTimeout : Int
  maxRetries : Int
  minRetryBackoff : Int
  maxRetryBackoff : Int
  keyPfx : String
  defaultTTL : Int
  tlsConfig : Option TLSConfig
  enableMetrics : Bool
  enableTracing : Bool
  deriving DecidableEq, Repr

/-- `Config`: top-level client configuration.  The Go `Mode` string type is
modelled as `String`; the nilable sub-configuration pointers as `Option`. -/
structure Config : Type where
  mode : String
  single : Option SingleConfig
  cluster : Option ClusterConfig
  sentinel : Option SentinelConfig
  common : CommonConfig
  deriving DecidableEq, Repr

/-- `ModeSingle` constant. -/
def ModeSingle : String := "single"

/-- `ModeCluster` constant. -/
def ModeCluster : String := "cluster"

/-- `ModeSentinel` constant. -/
def ModeSentinel : String := "sentinel"

/-- `DefaultConfig` from `src/config.go`: single-node mode at
`localhost:6379`, database 0, and the default common settings.  Go zero
values fill the fields the literal omits. -/
def DefaultConfig : Config where
  mode := ModeSingle
  single := some { addr := "localhost:6379", db := 0 }
  cluster := none
  sentinel := none
  common := {
    password := ""
    username := ""
    poolSize := 10
    minIdleConns := 2
    maxIdleConns := 5
    connMaxAge := hour
    poolTimeout := 4 * second
    idleTimeout := 5 * minute
    dialTimeout := 5 * second
    readTimeout := 3 * second
    writeTimeout := 3 * second
    maxRetries := 3
    minRetryBackoff := 8 * millisecond
    maxRetryBackoff := 512 * millisecond
    keyPfx := ""
    defaultTTL := 24 * hour
    tlsConfig := none
    enableMetrics := false
    enableTracing := false }

/-- `Config.Validate` from `src/config.go`: checks the mode tag and the
presence and non-emptiness of the matching sub-configuration.  The Go
`switch` is rendered as an `if` chain over string equality. -/
def Config.Validate (c : Config) : Except GoError Unit :=
  if c.mode = "" then .error .errInvalidMode
  else if c.mode = ModeSingle then
    match c.single with
    | none => .error .errMissingSingleConfig
    | some s => if s.addr = "" then .error .errMissingAddr else .ok ()
  else if c.mode = ModeCluster then
    match c.cluster with
    | none => .error .errMissingClusterConfig
    | some cl => if cl.addrs.length = 0 then .error .errMissingAddrs else .ok ()
  else if c.mode = ModeSentinel then
    match c.sentinel with
    | none => .error .errMissingSentinelConfig
    | some sn =>
      if sn.addrs.length = 0 then .error .errMissingAddrs
      else if sn.masterName = "" then .error .errMissingMasterName
      else .ok ()
  else .error .errInvalidMode

/-- `Config.GetKeyWithPrefix` from `src/config.go` (renamed `prefixedKey`
here): returns the key unchanged when the configured prefix is empty and the
concatenation prefix ++ key otherwise. -/
def Config.prefixedKey (c : Config) (key : String) : String :=
  if c.common.keyPfx = "" then key else c.common.keyPfx ++ key

/-- `Config.GetTTL` from `src/config.go`: a positive requested TTL is used
verbatim, otherwise the configured default TTL. -/
def Config.GetTTL (c : Config) (ttl : Int) : Int :=
  if ttl > 0 then ttl else c.common.defaultTTL

/-! ## Key listing post-processing (src/single_client.go Keys/Scan) -/

/-- The prefix-removal loop shared by `SingleClient.Keys`, `SingleClient.Scan`
(src/single_client.go lines 515-523 and 536-544) and their sentinel twins:
when the configured prefix is non-empty, each returned key strictly longer
than the prefix loses its first `len(prefix)` characters; shorter or
equal-length keys are left untouched. -/
def stripKeysLoop (c : Config) (keys : List String) : List String :=
  if c.common.keyPfx = "" then keys
  else
    let prefixLen := c.common.keyPfx.length
    keys.map fun key => if prefixLen < key.length then key.drop prefixLen else key

/-! ## Store and driver primitives

The go-redis driver is an external collaborator.  Its primitives are
modelled from the specification's Backend Capability boundary (spec §6):
primitive execution of key-value/list commands over a snapshot of the
store's state, with the distinguished nil reply on a missing key and a
per-command wrong-type error on a type mismatch. -/

/-- A stored value: Redis keys in the embedded fragment hold either a string
or a list. -/
inductive Val : Type
  | str (s : String)
  | list (l : List String)
  deriving DecidableEq, Repr

/-- A snapshot of the store's key space. -/
abbrev Store : Type := List (String × Val)

/-- Lookup of a key in a store snapshot. -/
def Store.find : Store → String → Option Val
  | [], _ => none
  | (k, v) :: rest, key => if k = key then some v else Store.find rest key

/-- Store update: sets a key to a value, replacing any previous binding. -/
def Store.set : Store → String → Val → Store
  | [], key, v => [(key, v)]
  | (k, w) :: rest, key, v =>
    if k = key then (k, v) :: rest else (k, w) :: Store.set rest key v

/-- Modelled from the spec: the driver's GET primitive returns the stored
string, the distinguished nil-result error on a missing key, and a
wrong-type error when the key holds a non-string value. -/
def redisGet (st : Store) (key : String) : Except GoError String :=
  match Store.find st key with
  | none => .error .redisNil
  | some (.str s) => .ok s
  | some (.list _) => .error .wrongType

/-! ## Unified client string operations (src/single_client.go, src/client.go) -/

/-- `SingleClient.Get` from `src/single_client.go`: prefixes the key, issues
the driver GET against the store snapshot, and maps the driver's nil-result
error to the distinguished `ErrKeyNotFound`; every other driver outcome is
returned unchanged. -/
def SingleClient.Get (c : Config) (st : Store) (key : String) : Except GoError String :=
  let key := Config.prefixedKey c key
  match redisGet st key with
  | .error .redisNil => .error .errKeyNotFound
  | r => r

/-- `SentinelClient.Get` from `src/client.go`: textually the same logic as
`SingleClient.Get` over the sentinel-backed connection. -/
def SentinelClient.Get (c : Config) (st : Store) (key : String) : Except GoError String :=
  let key := Config.prefixedKey c key
  match redisGet st key with
  | .error .redisNil => .error .errKeyNotFound
  | r => r

/-- The (key, expiration) pair that `SingleClient.Set` forwards to the
driver: the prefixed key and the resolved TTL (src/single_client.go lines
39-43). -/
def SingleClient.setForwarded (c : Config) (key : String) (expiration : Int) :
    String × Int :=
  (Config.prefixedKey c key, Config.GetTTL c expiration)

/-! ## MSet pair prefixing (src/single_client.go lines 72-84) -/

/-- A Go `interface{}` argument to `MSet`: either a string or some other
dynamic value. -/
inductive GoVal : Type
  | str (s : String)
  | int (n : Int)
  deriving DecidableEq, Repr

/-- The prefixed pair list that `SingleClient.MSet` (and the identical
`SentinelClient.MSet`) builds before delegating: the loop walks even indices
`i`, and only when `i+1 < len(pairs)` type-asserts `pairs[i]` to a string
(a failed assertion panics, modelled as `none`) and writes the prefixed key
and the untouched value; slots the loop never writes keep their nil zero
value, modelled as an inner `none`. -/
def msetPrefixedPairs (c : Config) : List GoVal → Option (List (Option GoVal))
  | [] => some []
  | [_] => some [none]
  | k :: v :: rest =>
    match k with
    | .str s =>
      (msetPrefixedPairs c rest).map
        fun r => some (.str (Config.prefixedKey c s)) :: some v :: r
    | _ => none

/-! ## Pipeline (src/pipeliner.go, src/client.go)

A `redis.Pipeliner` accumulates commands; `Exec` sends them in one round
trip.  The driver-side batch execution is modelled from the spec's Backend
Capability boundary (§6): an ordered command sequence is executed in one
round trip, yielding an ordered raw-result sequence, or a transport error
when the round trip itself fails (the transport outcome is a parameter). -/

/-- A command queued on the underlying driver pipeline. -/
inductive QCmd : Type
  | get (key : String)
  | set (key : String) (v : String) (ttl : Int)
  | setnx (key : String) (v : String) (ttl : Int)
  | lpush (key : String) (vs : List String)
  | smembers (key : String)
  | zrange (key : String) (start stop : Int)
  | expire (key : String) (ttl : Int)
  deriving DecidableEq, Repr

/-- A raw driver reply value.  Errored commands keep the zero value of
their reply type. -/
inductive RVal : Type
  | str (s : String)
  | status (s : String)
  | int (n : Int)
  | bool (b : Bool)
  | strs (l : List String)
  deriving DecidableEq, Repr

/-- A driver command object after batch execution: its resolved value and
its per-command error. -/
structure ResolvedCmd : Type where
  val : RVal
  err : Option GoError
  deriving DecidableEq, Repr

/-- Modelled from the spec: driver-side execution of one queued command
against the store snapshot.  GET mirrors `redisGet`; SET stores the string
and replies OK; SETNX stores only when the key is absent, replying whether
it stored; LPUSH prepends to a list, failing per-command with a wrong-type
error against a key holding a string; SMEMBERS and ZRANGE return the stored
collection (index slicing of the external driver is not modelled: no claim
depends on it), failing per-command against a key holding a string; EXPIRE
replies whether the key exists. -/
def runCmd (st : Store) : QCmd → Store × ResolvedCmd
  | .get key =>
    match Store.find st key with
    | none => (st, { val := .str "", err := some .redisNil })
    | some (.str s) => (st, { val := .str s, err := none })
    | some (.list _) => (st, { val := .str "", err := some .wrongType })
  | .set key v _ =>
    (Store.set st key (.str v), { val := .status "OK", err := none })
  | .setnx key v _ =>
    match Store.find st key with
    | none => (Store.set st key (.str v), { val := .bool true, err := none })
    | some _ => (st, { val := .bool false, err := none })
  | .lpush key vs =>
    match Store.find st key with
    | none =>
      (Store.set st key (.list vs.reverse), { val := .int vs.length, err := none })
    | some (.list l) =>
      (Store.set st key (.list (vs.reverse ++ l)),
        { val := .int (vs.length + l.length), err := none })
    | some (.str _) => (st, { val := .int 0, err := some .wrongType })
  | .smembers key =>
    match Store.find st key with
    | none => (st, { val := .strs [], err := none })
    | some (.list l) => (st, { val := .strs l, err := none })
    | some (.str _) => (st, { val := .strs [], err := some .wrongType })
  | .zrange key _ _ =>
    match Store.find st key with
    | none => (st, { val := .strs [], err := none })
    | some (.list l) => (st, { val := .strs l, err := none })
    | some (.str _) => (st, { val := .strs [], err := some .wrongType })
  | .expire key _ =>
    match Store.find st key with
    | none => (st, { val := .bool false, err := none })
    | some _ => (st, { val := .bool true, err := none })

/-- Modelled from the spec: driver-side execution of the whole queued
sequence, in order, threading the store and collecting one resolved command
per queued command. -/
def runBatch (st : Store) : List QCmd → Store × List ResolvedCmd
  | [] => (st, [])
  | c :: cs =>
    let (st1, r) := runCmd st c
    let (st2, rs) := runBatch st1 cs
    (st2, r :: rs)

/-- Modelled from the spec (§6 Backend Capability boundary): the driver
pipeline's `Exec` sends the queued commands as one round trip and returns
the ordered resolved command sequence, or a transport error when the round
trip could not be completed at all.  The transport outcome is passed in as
a parameter. -/
def redisPipeExec (st : Store) (queued : List QCmd) (transport : Option GoError) :
    Except GoError (Store × List ResolvedCmd) :=
  match transport with
  | some e => .error e
  | none => .ok (runBatch st queued)

/-! ### Result handle types (src/client.go lines 154-236)

Each handle is a plain struct holding a value and an error, with accessors
`Result`, `Val`, `Err` that read the stored fields. -/

/-- `StringCmd`: a string-valued result handle. -/
structure StringCmd : Type where
  val : String
  err : Option GoError
  deriving DecidableEq, Repr

/-- `StatusCmd`: a status-valued result handle. -/
structure StatusCmd : Type where
  val : String
  err : Option GoError
  deriving DecidableEq, Repr

/-- `IntCmd`: an integer-valued result handle. -/
structure IntCmd : Type where
  val : Int
  err : Option GoError
  deriving DecidableEq, Repr

/-- `BoolCmd`: a boolean-valued result handle. -/
structure BoolCmd : Type where
  val : Bool
  err : Option GoError
  deriving DecidableEq, Repr

/-- `StringSliceCmd`: a string-list-valued result handle.  The Go zero
value of its slice field (a nil slice) is modelled as the empty list. -/
structure StringSliceCmd : Type where
  val : List String
  err : Option GoError
  deriving DecidableEq, Repr

/-! ### SinglePipeliner (src/pipeliner.go lines 10-277) -/

/-- `SinglePipeliner`: the wrapper around the underlying driver pipeline
(its queued command sequence) and the configuration. -/
structure SinglePipeliner : Type where
  queued : List QCmd
  config : Config
  deriving DecidableEq, Repr

/-- A freshly queued driver string command, before execution: zero value
and nil error (go-redis creates queued command objects with zero-valued
fields; spec §3 calls the pre-execution fields "unspecified garbage/zero
values"). -/
def freshStringCmd : ResolvedCmd := { val := .str "", err := none }

/-- A freshly queued driver status command, before execution. -/
def freshStatusCmd : ResolvedCmd := { val := .status "", err := none }

/-- A freshly queued driver integer command, before execution. -/
def freshIntCmd : ResolvedCmd := { val := .int 0, err := none }

/-- A freshly queued driver boolean command, before execution. -/
def freshBoolCmd : ResolvedCmd := { val := .bool false, err := none }

/-- A freshly queued driver string-slice command, before execution. -/
def freshStringSliceCmd : ResolvedCmd := { val := .strs [], err := none }

/-- `SinglePipeliner.Get` from `src/pipeliner.go` lines 45-52: prefixes the
key, queues GET on the underlying pipeline, and returns a `StringCmd`
wrapper built from the queued command's value and error as they stand at
enqueue time. -/
def SinglePipeliner.Get (p : SinglePipeliner) (key : String) :
    SinglePipeliner × StringCmd :=
  let key := Config.prefixedKey p.config key
  let cmd := freshStringCmd
  ({ p with queued := p.queued ++ [.get key] },
    { val := match cmd.val with | .str s => s | _ => "", err := cmd.err })

/-- `SinglePipeliner.Set` from `src/pipeliner.go` lines 54-63: prefixes the
key, resolves the TTL, queues SET, and returns a `StatusCmd` wrapper built
from the queued command's value and error as they stand at enqueue time. -/
def SinglePipeliner.Set (p : SinglePipeliner) (key : String) (value : String)
    (expiration : Int) : SinglePipeliner × StatusCmd :=
  let key := Config.prefixedKey p.config key
  let expiration := Config.GetTTL p.config expiration
  let cmd := freshStatusCmd
  ({ p with queued := p.queued ++ [.set key value expiration] },
    { val := match cmd.val with | .status s => s | _ => "", err := cmd.err })

/-- `SinglePipeliner.SetNX` from `src/pipeliner.go` lines 66-74: prefixes
the key, resolves the TTL, queues SETNX, and returns a `BoolCmd` wrapper
built from the queued command's value and error as they stand at enqueue
time. -/
def SinglePipeliner.SetNX (p : SinglePipeliner) (key : String) (value : String)
    (expiration : Int) : SinglePipeliner × BoolCmd :=
  let key := Config.prefixedKey p.config key
  let expiration := Config.GetTTL p.config expiration
  let cmd := freshBoolCmd
  ({ p with queued := p.queued ++ [.setnx key value expiration] },
    { val := match cmd.val with | .bool b => b | _ => false, err := cmd.err })

/-- `SinglePipeliner.LPush` from `src/pipeliner.go` lines 131-138: prefixes
the key, queues LPUSH, and returns an `IntCmd` wrapper built from the queued
command's value and error as they stand at enqueue time. -/
def SinglePipeliner.LPush (p : SinglePipeliner) (key : String) (values : List String) :
    SinglePipeliner × IntCmd :=
  let key := Config.prefixedKey p.config key
  let cmd := freshIntCmd
  ({ p with queued := p.queued ++ [.lpush key values] },
    { val := match cmd.val with | .int n => n | _ => 0, err := cmd.err })

/-- `SinglePipeliner.SMembers` from `src/pipeliner.go` lines 193-200:
prefixes the key, queues SMEMBERS, and returns a `StringSliceCmd` wrapper
built from the queued command's value and error as they stand at enqueue
time. -/
def SinglePipeliner.SMembers (p : SinglePipeliner) (key : String) :
    SinglePipeliner × StringSliceCmd :=
  let key := Config.prefixedKey p.config key
  let cmd := freshStringSliceCmd
  ({ p with queued := p.queued ++ [.smembers key] },
    { val := match cmd.val with | .strs l => l | _ => [], err := cmd.err })

/-- `SinglePipeliner.ZRange` from `src/pipeliner.go` lines 232-239:
prefixes the key, queues ZRANGE, and returns a `StringSliceCmd` wrapper
built from the queued command's value and error as they stand at enqueue
time. -/
def SinglePipeliner.ZRange (p : SinglePipeliner) (key : String)
    (start stop : Int) : SinglePipeliner × StringSliceCmd :=
  let key := Config.prefixedKey p.config key
  let cmd := freshStringSliceCmd
  ({ p with queued := p.queued ++ [.zrange key start stop] },
    { val := match cmd.val with | .strs l => l | _ => [], err := cmd.err })

/-- `SinglePipeliner.Expire` from `src/pipeliner.go` lines 270-277:
prefixes the key (the expiration is passed through, NOT resolved via
GetTTL), queues EXPIRE, and returns a `BoolCmd` wrapper built from the
queued command's value and error as they stand at enqueue time. -/
def SinglePipeliner.Expire (p : SinglePipeliner) (key : String)
    (expiration : Int) : SinglePipeliner × BoolCmd :=
  let key := Config.prefixedKey p.config key
  let cmd := freshBoolCmd
  ({ p with queued := p.queued ++ [.expire key expiration] },
    { val := match cmd.val with | .bool b => b | _ => false, err := cmd.err })

/-- `SinglePipeliner.Exec` from `src/pipeliner.go` lines 17-28: runs the
underlying pipeline's Exec; on a driver error returns (nil, err); otherwise
copies each returned driver command object, in order, into the result
slice. -/
def SinglePipeliner.Exec (p : SinglePipeliner) (st : Store)
    (transport : Option GoError) : Except GoError (Store × List ResolvedCmd) :=
  match redisPipeExec st p.queued transport with
  | .error e => .error e
  | .ok (st2, cmds) => .ok (st2, cmds.map fun cmd => cmd)

/-- `SinglePipeliner.Discard` from `src/pipeliner.go` lines 31-34: discards
the queued commands on the underlying pipeline and reports no error. -/
def SinglePipeliner.Discard (p : SinglePipeliner) : SinglePipeliner × Option GoError :=
  ({ p with queued := [] }, none)

/-- `SinglePipeliner.Close` from `src/pipeliner.go` lines 37-40: a no-op
that reports no error. -/
def SinglePipeliner.Close (_ : SinglePipeliner) : Option GoError := none

/-! ## Factory (src/factory.go)

The three create functions build driver options copied from configuration,
construct a driver backend, ping it, and on ping failure close the backend
and fail.  Cert loading (inside `buildTLSConfig`) and the liveness ping are
external I/O; their outcomes are parameters (`tlsErr`, `pingErr`). -/

/-- `redis.Options` fields copied by `createSingleClient`. -/
structure RedisOptions : Type where
  addr : String
  db : Int
  username : String
  password : String
  poolSize : Int
  minIdleConns : Int
  maxIdleConns : Int
  poolTimeout : Int
  dialTimeout : Int
  readTimeout : Int
  writeTimeout : Int
  maxRetries : Int
  minRetryBackoff : Int
  maxRetryBackoff : Int
  tls : Option TLSConfig
  deriving DecidableEq, Repr

/-- `redis.ClusterOptions` fields copied by `createClusterClient`. -/
structure ClusterOptions : Type where
  addrs : List String
  username : String
  password : String
  maxRedirects : Int
  readOnly : Bool
  routeByLatency : Bool
  routeRandomly : Bool
  poolSize : Int
  minIdleConns : Int
  maxIdleConns : Int
  poolTimeout : Int
  dialTimeout : Int
  readTimeout : Int
  writeTimeout : Int
  maxRetries : Int
  minRetryBackoff : Int
  maxRetryBackoff : Int
  tls : Option TLSConfig
  deriving DecidableEq, Repr

/-- `redis.FailoverOptions` fields copied by `createSentinelClient`. -/
structure FailoverOptions : Type where
  masterName : String
  sentinelAddrs : List String
  sentinelPassword : String
  db : Int
  username : String
  password : String
  poolSize : Int
  minIdleConns : Int
  maxIdleConns : Int
  poolTimeout : Int
  dialTimeout : Int
  readTimeout : Int
  writeTimeout : Int
  maxRetries : Int
  minRetryBackoff : Int
  maxRetryBackoff : Int
  tls : Option TLSConfig
  deriving DecidableEq, Repr

/-- Options of the three driver backend kinds. -/
inductive BackendOpts : Type
  | single (o : RedisOptions)
  | cluster (o : ClusterOptions)
  | failover (o : FailoverOptions)
  deriving DecidableEq, Repr

/-- A constructed driver backend together with whether it has been
closed. -/
structure Backend : Type where
  opts : BackendOpts
  closed : Bool
  deriving DecidableEq, Repr

/-- A constructed unified client: the backend it wraps plus the shared
configuration (the Go `SingleClient` / `ClusterClient` / `SentinelClient`
structs). -/
inductive ClientM : Type
  | single (backend : Backend) (config : Config)
  | cluster (backend : Backend) (config : Config)
  | sentinel (backend : Backend) (config : Config)
  deriving DecidableEq, Repr

/-- `Factory` from `src/factory.go`. -/
structure Factory : Type where
  config : Config
  deriving DecidableEq, Repr

/-- `NewFactory` from `src/factory.go` lines 18-30: a nil configuration is
replaced by `DefaultConfig`; the configuration is validated, a validation
error is wrapped as an invalid-config error, and otherwise the factory is
returned. -/
def NewFactory (config : Option Config) : Except GoError Factory :=
  let config := match config with | none => DefaultConfig | some c => c
  match Config.Validate config with
  | .error e => .error (.wrapped "invalid config" e)
  | .ok _ => .ok { config := config }

/-- Whether the configuration enables TLS (the Go condition
`TLSConfig != nil && TLSConfig.Enabled`). -/
def Config.tlsEnabled (c : Config) : Bool :=
  match c.common.tlsConfig with
  | none => false
  | some t => t.enabled

/-- `Factory.createSingleClient` from `src/factory.go` lines 47-95: copies
pooling/timeout/retry parameters verbatim into driver options, attaches TLS
when enabled (failing first if cert loading fails), constructs the backend,
pings it, and on ping failure closes the backend and returns a wrapped
connection error.  Returns the Go (Client, error) pair plus the final state
of the backend, when one was constructed.  The Go code dereferences
`f.config.Single` without a nil check; the model reads it through `getD`,
and every theorem below only reaches this function with a single-mode
configuration. -/
def Factory.createSingleClient (f : Factory) (tlsErr : Option GoError)
    (pingErr : Option GoError) : Except GoError ClientM × Option Backend :=
  let sc := f.config.single.getD { addr := "", db := 0 }
  let opts : RedisOptions := {
    addr := sc.addr
    db := sc.db
    username := f.config.common.username
    password := f.config.common.password
    poolSize := f.config.common.poolSize
    minIdleConns := f.config.common.minIdleConns
    maxIdleConns := f.config.common.maxIdleConns
    poolTimeout := f.config.common.poolTimeout
    dialTimeout := f.config.common.dialTimeout
    readTimeout := f.config.common.readTimeout
    writeTimeout := f.config.common.writeTimeout
    maxRetries := f.config.common.maxRetries
    minRetryBackoff := f.config.common.minRetryBackoff
    maxRetryBackoff := f.config.common.maxRetryBackoff
    tls := none }
  let proceed : RedisOptions → Except GoError ClientM × Option Backend :=
    fun opts =>
      let rdb : Backend := { opts := .single opts, closed := false }
      match pingErr with
      | some e =>
        (.error (.wrapped "failed to connect to redis" e),
          some { rdb with closed := true })
      | none => (.ok (.single rdb f.config), some rdb)
  if Config.tlsEnabled f.config then
    match tlsErr with
    | some e => (.error (.wrapped "failed to build TLS config" e), none)
    | none => proceed { opts with tls := f.config.common.tlsConfig }
  else proceed opts

/-- `Factory.createClusterClient` from `src/factory.go` lines 98-156: the
cluster analogue of `createSingleClient`, including the MaxRedirects default
of 3 when the configured value is 0.  The Go code dereferences
`f.config.Cluster` without a nil check; the model reads it through
`getD`. -/
def Factory.createClusterClient (f : Factory) (tlsErr : Option GoError)
    (pingErr : Option GoError) : Except GoError ClientM × Option Backend :=
  let cc := f.config.cluster.getD
    { addrs := [], maxRedirects := 0, readOnly := false,
      routeByLatency := false, routeRandomly := false }
  let opts : ClusterOptions := {
    addrs := cc.addrs
    username := f.config.common.username
    password := f.config.common.password
    maxRedirects := cc.maxRedirects
    readOnly := cc.readOnly
    routeByLatency := cc.routeByLatency
    routeRandomly := cc.routeRandomly
    poolSize := f.config.common.poolSize
    minIdleConns := f.config.common.minIdleConns
    maxIdleConns := f.config.common.maxIdleConns
    poolTimeout := f.config.common.poolTimeout
    dialTimeout := f.config.common.dialTimeout
    readTimeout := f.config.common.readTimeout
    writeTimeout := f.config.common.writeTimeout
    maxRetries := f.config.common.maxRetries
    minRetryBackoff := f.config.common.minRetryBackoff
    maxRetryBackoff := f.config.common.maxRetryBackoff
    tls := none }
  let proceed : ClusterOptions → Except GoError ClientM × Option Backend :=
    fun opts =>
      let opts := if opts.maxRedirects = 0 then { opts with maxRedirects := 3 } else opts
      let rdb : Backend := { opts := .cluster opts, closed := false }
      match pingErr with
      | some e =>
        (.error (.wrapped "failed to connect to redis cluster" e),
          some { rdb with closed := true })
      | none => (.ok (.cluster rdb f.config), some rdb)
  if Config.tlsEnabled f.config then
    match tlsErr with
    | some e => (.error (.wrapped "failed to build TLS config" e), none)
    | none => proceed { opts with tls := f.config.common.tlsConfig }
  else proceed opts

/-- `Factory.createSentinelClient` from `src/factory.go` lines 159-209: the
sentinel analogue of `createSingleClient`.  The Go code dereferences
`f.config.Sentinel` without a nil check; the model reads it through
`getD`. -/
def Factory.createSentinelClient (f : Factory) (tlsErr : Option GoError)
    (pingErr : Option GoError) : Except GoError ClientM × Option Backend :=
  let sn := f.config.sentinel.getD
    { addrs := [], masterName := "", db := 0, sentinelPassword := "" }
  let opts : FailoverOptions := {
    masterName := sn.masterName
    sentinelAddrs := sn.addrs
    sentinelPassword := sn.sentinelPassword
    db := sn.db
    username := f.config.common.username
    password := f.config.common.password
    poolSize := f.config.common.poolSize
    minIdleConns := f.config.common.minIdleConns
    maxIdleConns := f.config.common.maxIdleConns
    poolTimeout := f.config.common.poolTimeout
    dialTimeout := f.config.common.dialTimeout
    readTimeout := f.config.common.readTimeout
    writeTimeout := f.config.common.writeTimeout
    maxRetries := f.config.common.maxRetries
    minRetryBackoff := f.config.common.minRetryBackoff
    maxRetryBackoff := f.config.common.maxRetryBackoff
    tls := none }
  let proceed : FailoverOptions → Except GoError ClientM × Option Backend :=
    fun opts =>
      let rdb : Backend := { opts := .failover opts, closed := false }
      match pingErr with
      | some e =>
        (.error (.wrapped "failed to connect to redis sentinel" e),
          some { rdb with closed := true })
      | none => (.ok (.sentinel rdb f.config), some rdb)
  if Config.tlsEnabled f.config then
    match tlsErr with
    | some e => (.error (.wrapped "failed to build TLS config" e), none)
    | none => proceed { opts with tls := f.config.common.tlsConfig }
  else proceed opts

/-- `Factory.CreateClient` from `src/factory.go` lines 33-44: dispatches on
the configured mode to the matching create function; an unknown mode yields
an unsupported-mode error (and no backend is ever constructed). -/
def Factory.CreateClient (f : Factory) (tlsErr : Option GoError)
    (pingErr : Option GoError) : Except GoError ClientM × Option Backend :=
  if f.config.mode = ModeSingle then Factory.createSingleClient f tlsErr pingErr
  else if f.config.mode = ModeCluster then Factory.createClusterClient f tlsErr pingErr
  else if f.config.mode = ModeSentinel then Factory.createSentinelClient f tlsErr pingErr
  else (.error (.other "unsupported mode"), none)

/-! ## Concrete instances used by witnesses and counterexamples -/

/-- The default configuration with the key prefix set to "app:". -/
def cfgApp : Config :=
  { DefaultConfig with common := { DefaultConfig.common with keyPfx := "app:" } }

/-- A sentinel-mode configuration whose supervised-group (master) name is
empty. -/
def cfgNoMaster : Config :=
  { DefaultConfig with
    mode := ModeSentinel
    sentinel := some { addrs := ["s1:26379"], masterName := "", db := 0,
                       sentinelPassword := "" } }

/-- Store snapshot for the batch error-isolation scenario: key "k" holds a
string (so a list push against it fails per-command), key "w" holds "v". -/
def stIso : Store := [("k", Val.str "s"), ("w", Val.str "v")]

/-- An empty pipeline over the default (empty-prefix) configuration. -/
def pipe0 : SinglePipeliner := { queued := [], config := DefaultConfig }

/-- The driver options `createSingleClient` builds from `DefaultConfig`. -/
def defaultSingleOpts : RedisOptions where
  addr := "localhost:6379"
  db := 0
  username := ""
  password := ""
  poolSize := 10
  minIdleConns := 2
  maxIdleConns := 5
  poolTimeout := 4 * second
  dialTimeout := 5 * second
  readTimeout := 3 * second
  writeTimeout := 3 * second
  maxRetries := 3
  minRetryBackoff := 8 * millisecond
  maxRetryBackoff := 512 * millisecond
  tls := none

/-- The backend `createSingleClient` leaves behind when the liveness probe
against a default-configuration backend fails: built, then closed. -/
def downBackend : Backend := { opts := .single defaultSingleOpts, closed := true }

/-! ## Helper lemmas -/

/-- A non-empty string has positive length. -/
theorem length_pos_of_ne_empty (s : String) (h : s ≠ "") : 0 < s.length := by
  cases s with
  | mk data =>
    cases data with
    | nil => simp [String.ext_iff] at h
    | cons a l => simp [String.length]

/-- Dropping the length of the left part of a concatenation yields the
right part. -/
theorem drop_length_append (p k : String) : (p ++ k).drop p.length = k := by
  apply String.ext
  rw [String.data_drop, String.data_append]
  have h : p.length = p.data.length := rfl
  rw [h, List.drop_left]

/-! ## Claim theorems -/

/-- Claim C4: for every requested duration d, `Config.GetTTL` returns d
whenever d > 0 and the configured default TTL whenever d <= 0, and `Set`
forwards the resolved default TTL to the driver for a zero or negative
requested expiration. -/
theorem getTTL_resolves (c : Config) (k : String) (d : Int) :
    (0 < d → Config.GetTTL c d = d) ∧
    (d ≤ 0 → Config.GetTTL c d = c.common.defaultTTL ∧
      (SingleClient.setForwarded c k d).2 = c.common.defaultTTL) := by
  unfold Config.GetTTL SingleClient.setForwarded
  constructor
  · intro h
    simp [h]
  · intro h
    simp [not_lt.mpr h, Config.GetTTL]

/-- Witness for C4 at d = 5 and d = 0 under the default configuration. -/
theorem getTTL_resolves_witness :
    Config.GetTTL DefaultConfig 5 = 5 ∧
    Config.GetTTL DefaultConfig 0 = DefaultConfig.common.defaultTTL :=
  ⟨(getTTL_resolves DefaultConfig "k" 5).1 (by decide),
   ((getTTL_resolves DefaultConfig "k" 0).2 (by decide)).1⟩

/-- Claim C3 counterexample: with prefix "app:", the empty key is prefixed
to "app:", whose length equals the prefix length, so the Keys/Scan strip
loop leaves it untouched: the round trip returns "app:", not the original
empty key. -/
theorem strip_empty_key_cex :
    stripKeysLoop cfgApp [Config.prefixedKey cfgApp ""] = ["app:"] ∧
    ("app:" : String) ≠ "" := by
  constructor
  · decide
  · decide

/-- Claim C3 (amended): when the prefix is empty, `prefixedKey` is the
identity; when it is non-empty, `prefixedKey` prepends the prefix, and the
Keys/Scan strip loop inverts it for every NON-empty key (it strips exactly
len(prefix) leading characters only from returned keys strictly longer than
the prefix, so the empty key comes back as the prefix itself). -/
theorem prefix_round_trip (c : Config) (k : String) :
    (c.common.keyPfx = "" → Config.prefixedKey c k = k) ∧
    (c.common.keyPfx ≠ "" → Config.prefixedKey c k = c.common.keyPfx ++ k) ∧
    (c.common.keyPfx ≠ "" → k ≠ "" →
      stripKeysLoop c [Config.prefixedKey c k] = [k]) := by
  refine ⟨?_, ?_, ?_⟩
  · intro h
    simp [Config.prefixedKey, h]
  · intro h
    simp [Config.prefixedKey, h]
  · intro h hk
    have hlen : c.common.keyPfx.length < (Config.prefixedKey c k).length := by
      simp [Config.prefixedKey, h, String.length_append]
      exact length_pos_of_ne_empty k hk
    simp only [stripKeysLoop, h, if_neg h, List.map, if_pos hlen]
    simp [Config.prefixedKey, h, drop_length_append]

/-- Witness for C3 (amended) at prefix "app:" and key "user:1", and at the
empty prefix. -/
theorem prefix_round_trip_witness :
    Config.prefixedKey DefaultConfig "user:1" = "user:1" ∧
    Config.prefixedKey cfgApp "user:1" = "app:" ++ "user:1" ∧
    stripKeysLoop cfgApp [Config.prefixedKey cfgApp "user:1"] = ["user:1"] :=
  ⟨(prefix_round_trip DefaultConfig "user:1").1 (by decide),
   (prefix_round_trip cfgApp "user:1").2.1 (by decide),
   (prefix_round_trip cfgApp "user:1").2.2 (by decide) (by decide)⟩

/-- Claim C5: a lookup that misses in the store makes the client's Get
return the distinguished `errKeyNotFound`, never the driver's nil-result
error or another generic error, on both the single and the sentinel
clients. -/
theorem get_missing_key_not_found (c : Config) (st : Store) (k : String)
    (h : Store.find st (Config.prefixedKey c k) = none) :
    SingleClient.Get c st k = .error .errKeyNotFound ∧
    SentinelClient.Get c st k = .error .errKeyNotFound := by
  simp [SingleClient.Get, SentinelClient.Get, redisGet, h]

/-- Witness for C5: the key "missing" against the empty store. -/
theorem get_missing_key_not_found_witness :
    SingleClient.Get DefaultConfig [] "missing" = .error .errKeyNotFound ∧
    SentinelClient.Get DefaultConfig [] "missing" = .error .errKeyNotFound :=
  get_missing_key_not_found DefaultConfig [] "missing" (by decide)

/-- Claim C8: every result-handle object of every handle type (StringCmd,
StatusCmd, IntCmd, BoolCmd, StringSliceCmd) returned by a pipeliner enqueue
method is fully constructed at enqueue time from the underlying queued
command's value and error as they stand at that moment (the zero value and
nil), for every pipeline state and argument; the handle is a struct copied
by value, so no later `Exec`, `Discard` or `Close` (none of which receive
the handle) can modify its fields. -/
theorem handles_snapshot_at_enqueue (p : SinglePipeliner)
    (k1 k2 k3 k4 k5 k6 k7 : String) (v v2 : String) (ttl ttl2 ttl3 : Int)
    (vs : List String) (start stop : Int) :
    (SinglePipeliner.Get p k1).2 = { val := "", err := none } ∧
    (SinglePipeliner.Set p k2 v ttl).2 = { val := "", err := none } ∧
    (SinglePipeliner.SetNX p k3 v2 ttl2).2 = { val := false, err := none } ∧
    (SinglePipeliner.LPush p k4 vs).2 = { val := 0, err := none } ∧
    (SinglePipeliner.SMembers p k5).2 = { val := [], err := none } ∧
    (SinglePipeliner.ZRange p k6 start stop).2 = { val := [], err := none } ∧
    (SinglePipeliner.Expire p k7 ttl3).2 = { val := false, err := none } :=
  ⟨rfl, rfl, rfl, rfl, rfl, rfl, rfl⟩

/-- Claim C1 (code-bug evidence): enqueue LPUSH on key "k" (which holds a
string, so the command fails per-command) and then GET on key "w" (which
holds "v").  Exec returns with no top-level error and its ordered result
list records the wrong-type failure of command 0 and the value "v" of
command 1 — but the failing command's already-returned handle carries NO
error (err = none) and the succeeding command's handle carries the empty
string instead of "v", because both were snapshotted at enqueue time.  The
repository's own unit tests (tests/unit/pipeline_test.go) assert that
handles carry resolved values after Exec. -/
theorem batch_error_isolation_bug :
    (SinglePipeliner.Exec
        (SinglePipeliner.Get (SinglePipeliner.LPush pipe0 "k" ["x"]).1 "w").1
        stIso none =
      .ok (stIso,
        [{ val := .int 0, err := some .wrongType },
         { val := .str "v", err := none }])) ∧
    (SinglePipeliner.LPush pipe0 "k" ["x"]).2.err = none ∧
    (SinglePipeliner.Get (SinglePipeliner.LPush pipe0 "k" ["x"]).1 "w").2.val = "" :=
  ⟨rfl, rfl, rfl⟩

/-- Claim C2 (code-bug evidence): a batch of two commands — SET "k" "v"
then GET "k" — executed on the empty store.  Exec does return exactly 2
results in enqueue order, with the result at position 1 resolving to "v";
but the GET command's already-returned handle still holds the empty string,
not the value at its enqueue position, because handles are snapshotted at
enqueue time and never updated by Exec.  The repository's own unit tests
(tests/unit/pipeline_test.go) assert the handle equals the resolved
value. -/
theorem batch_handle_resolution_bug :
    (SinglePipeliner.Exec
        (SinglePipeliner.Get (SinglePipeliner.Set pipe0 "k" "v" 0).1 "k").1
        [] none =
      .ok ([("k", Val.str "v")],
        [{ val := .status "OK", err := none },
         { val := .str "v", err := none }])) ∧
    (SinglePipeliner.Get (SinglePipeliner.Set pipe0 "k" "v" 0).1 "k").2.val = "" ∧
    ("" : String) ≠ "v" :=
  ⟨rfl, rfl, by decide⟩

/-- Claim C10: `NewFactory` with a nil configuration substitutes
`DefaultConfig` (single-node mode at localhost:6379, database 0, default
TTL of 24 hours, empty key prefix) and succeeds, and the resulting factory's
`CreateClient` takes the single-node branch, returning a single-node client
when the liveness probe succeeds. -/
theorem newFactory_nil_defaults :
    NewFactory none = .ok { config := DefaultConfig } ∧
    DefaultConfig.mode = ModeSingle ∧
    DefaultConfig.single = some { addr := "localhost:6379", db := 0 } ∧
    DefaultConfig.common.defaultTTL = 24 * hour ∧
    DefaultConfig.common.keyPfx = "" ∧
    (Factory.CreateClient { config := DefaultConfig } none none).1 =
      .ok (.single { opts := .single defaultSingleOpts, closed := false }
            DefaultConfig) :=
  ⟨rfl, rfl, rfl, rfl, rfl, rfl⟩

/-- Claim C6: `Validate` succeeds exactly when the topology tag is one of
single/cluster/sentinel and the matching sub-configuration is present and
non-empty (single: non-empty address; cluster: non-empty address list;
sentinel: non-empty address list and non-empty master name); each failure
returns the distinguished configuration error naming the missing field, and
any other or empty tag fails with the invalid-mode error. -/
theorem validate_characterization (c : Config) :
    (Config.Validate c = .ok () ↔
      (c.mode = ModeSingle ∧ ∃ s, c.single = some s ∧ s.addr ≠ "") ∨
      (c.mode = ModeCluster ∧ ∃ cl, c.cluster = some cl ∧ cl.addrs ≠ []) ∨
      (c.mode = ModeSentinel ∧ ∃ sn, c.sentinel = some sn ∧
        sn.addrs ≠ [] ∧ sn.masterName ≠ "")) ∧
    (c.mode = ModeSingle → c.single = none →
      Config.Validate c = .error .errMissingSingleConfig) ∧
    (∀ s, c.mode = ModeSingle → c.single = some s → s.addr = "" →
      Config.Validate c = .error .errMissingAddr) ∧
    (c.mode = ModeCluster → c.cluster = none →
      Config.Validate c = .error .errMissingClusterConfig) ∧
    (∀ cl, c.mode = ModeCluster → c.cluster = some cl → cl.addrs = [] →
      Config.Validate c = .error .errMissingAddrs) ∧
    (c.mode = ModeSentinel → c.sentinel = none →
      Config.Validate c = .error .errMissingSentinelConfig) ∧
    (∀ sn, c.mode = ModeSentinel → c.sentinel = some sn → sn.addrs = [] →
      Config.Validate c = .error .errMissingAddrs) ∧
    (∀ sn, c.mode = ModeSentinel → c.sentinel = some sn → sn.addrs ≠ [] →
      sn.masterName = "" → Config.Validate c = .error .errMissingMasterName) ∧
    (c.mode ≠ ModeSingle → c.mode ≠ ModeCluster → c.mode ≠ ModeSentinel →
      Config.Validate c = .error .errInvalidMode) := by
  have hs : ModeSingle ≠ "" := by decide
  have hc : ModeCluster ≠ "" := by decide
  have hsn : ModeSentinel ≠ "" := by decide
  have m1 : ModeCluster ≠ ModeSingle := by decide
  have t1 : ModeSentinel ≠ ModeSingle := by decide
  have t2 : ModeSentinel ≠ ModeCluster := by decide
  refine ⟨?_, ?_, ?_, ?_, ?_, ?_, ?_, ?_, ?_⟩
  · constructor
    · intro h
      by_cases h0 : c.mode = ""
      · simp [Config.Validate, h0] at h
      · by_cases h1 : c.mode = ModeSingle
        · cases hopt : c.single with
          | none => simp [Config.Validate, h0, h1, hs, hopt] at h
          | some s =>
            by_cases ha : s.addr = ""
            · simp [Config.Validate, h0, h1, hs, hopt, ha] at h
            · exact Or.inl ⟨h1, s, rfl, ha⟩
        · by_cases h2 : c.mode = ModeCluster
          · cases hopt : c.cluster with
            | none => simp [Config.Validate, h0, h1, h2, hc, m1, hopt] at h
            | some cl =>
              by_cases ha : cl.addrs.length = 0
              · simp [Config.Validate, h0, h1, h2, hc, m1, hopt, ha] at h
              · refine Or.inr (Or.inl ⟨h2, cl, rfl, ?_⟩)
                intro hnil
                exact ha (by simp [hnil])
          · by_cases h3 : c.mode = ModeSentinel
            · cases hopt : c.sentinel with
              | none =>
                simp [Config.Validate, h0, h1, h2, h3, hsn, t1, t2, hopt] at h
              | some sn =>
                by_cases ha : sn.addrs.length = 0
                · simp [Config.Validate, h0, h1, h2, h3, hsn, t1, t2,
                    hopt, ha] at h
                · by_cases hm : sn.masterName = ""
                  · simp [Config.Validate, h0, h1, h2, h3, hsn, t1, t2,
                      hopt, ha, hm] at h
                  · refine Or.inr (Or.inr ⟨h3, sn, rfl, ?_, hm⟩)
                    intro hnil
                    exact ha (by simp [hnil])
            · simp [Config.Validate, h0, h1, h2, h3] at h
    · rintro (⟨h1, s, hopt, ha⟩ | ⟨h2, cl, hopt, ha⟩ | ⟨h3, sn, hopt, ha, hm⟩)
      · simp [Config.Validate, h1, hs, hopt, ha]
      · simp [Config.Validate, h2, hc, m1, hopt,
          List.length_eq_zero.not.mpr ha]
      · simp [Config.Validate, h3, hsn, t1, t2, hopt,
          List.length_eq_zero.not.mpr ha, hm]
  · intro h1 hopt
    simp [Config.Validate, h1, hs, hopt]
  · intro s h1 hopt ha
    simp [Config.Validate, h1, hs, hopt, ha]
  · intro h2 hopt
    simp [Config.Validate, h2, hc, m1, hopt]
  · intro cl h2 hopt ha
    simp [Config.Validate, h2, hc, m1, hopt, ha]
  · intro h3 hopt
    simp [Config.Validate, h3, hsn, t1, t2, hopt]
  · intro sn h3 hopt ha
    simp [Config.Validate, h3, hsn, t1, t2, hopt, ha]
  · intro sn h3 hopt ha hm
    simp [Config.Validate, h3, hsn, t1, t2, hopt,
      List.length_eq_zero.not.mpr ha, hm]
  · intro h1 h2 h3
    by_cases h0 : c.mode = ""
    · simp [Config.Validate, h0]
    · simp [Config.Validate, h0, h1, h2, h3]

/-- Witness for C6: the default configuration validates, and a sentinel
configuration with addresses but an empty master name fails with the
missing-master-name error. -/
theorem validate_characterization_witness :
    Config.Validate DefaultConfig = .ok () ∧
    Config.Validate cfgNoMaster = .error .errMissingMasterName :=
  ⟨(validate_characterization DefaultConfig).1.mpr
      (Or.inl ⟨rfl, { addr := "localhost:6379", db := 0 }, rfl, by decide⟩),
   (validate_characterization cfgNoMaster).2.2.2.2.2.2.2.1
      { addrs := ["s1:26379"], masterName := "", db := 0, sentinelPassword := "" }
      rfl rfl (by decide) rfl⟩

/-- The single-node create function under a failing probe: no client, and
any constructed backend is closed, with the wrapped connection error. -/
theorem createSingle_ping_fail (f : Factory) (tlsErr : Option GoError) (e : GoError) :
    (∀ cl, (Factory.createSingleClient f tlsErr (some e)).1 ≠ .ok cl) ∧
    (∀ b, (Factory.createSingleClient f tlsErr (some e)).2 = some b →
      b.closed = true ∧ (Factory.createSingleClient f tlsErr (some e)).1 =
        .error (.wrapped "failed to connect to redis" e)) := by
  unfold Factory.createSingleClient
  by_cases ht : Config.tlsEnabled f.config
  · cases tlsErr with
    | some e2 =>
      refine ⟨?_, ?_⟩
      · intro cl
        simp [ht]
      · intro b hb
        simp [ht] at hb
    | none =>
      refine ⟨?_, ?_⟩
      · intro cl
        simp [ht]
      · intro b hb
        simp [ht] at hb
        subst hb
        exact ⟨rfl, by simp [ht]⟩
  · refine ⟨?_, ?_⟩
    · intro cl
      simp [ht]
    · intro b hb
      simp [ht] at hb
      subst hb
      exact ⟨rfl, by simp [ht]⟩

/-- The cluster create function under a failing probe. -/
theorem createCluster_ping_fail (f : Factory) (tlsErr : Option GoError) (e : GoError) :
    (∀ cl, (Factory.createClusterClient f tlsErr (some e)).1 ≠ .ok cl) ∧
    (∀ b, (Factory.createClusterClient f tlsErr (some e)).2 = some b →
      b.closed = true ∧ (Factory.createClusterClient f tlsErr (some e)).1 =
        .error (.wrapped "failed to connect to redis cluster" e)) := by
  unfold Factory.createClusterClient
  by_cases ht : Config.tlsEnabled f.config
  · cases tlsErr with
    | some e2 =>
      refine ⟨?_, ?_⟩
      · intro cl
        simp [ht]
      · intro b hb
        simp [ht] at hb
    | none =>
      refine ⟨?_, ?_⟩
      · intro cl
        simp [ht]
      · intro b hb
        simp [ht] at hb
        subst hb
        exact ⟨rfl, by simp [ht]⟩
  · refine ⟨?_, ?_⟩
    · intro cl
      simp [ht]
    · intro b hb
      simp [ht] at hb
      subst hb
      exact ⟨rfl, by simp [ht]⟩

/-- The sentinel create function under a failing probe. -/
theorem createSentinel_ping_fail (f : Factory) (tlsErr : Option GoError) (e : GoError) :
    (∀ cl, (Factory.createSentinelClient f tlsErr (some e)).1 ≠ .ok cl) ∧
    (∀ b, (Factory.createSentinelClient f tlsErr (some e)).2 = some b →
      b.closed = true ∧ (Factory.createSentinelClient f tlsErr (some e)).1 =
        .error (.wrapped "failed to connect to redis sentinel" e)) := by
  unfold Factory.createSentinelClient
  by_cases ht : Config.tlsEnabled f.config
  · cases tlsErr with
    | some e2 =>
      refine ⟨?_, ?_⟩
      · intro cl
        simp [ht]
      · intro b hb
        simp [ht] at hb
    | none =>
      refine ⟨?_, ?_⟩
      · intro cl
        simp [ht]
      · intro b hb
        simp [ht] at hb
        subst hb
        exact ⟨rfl, by simp [ht]⟩
  · refine ⟨?_, ?_⟩
    · intro cl
      simp [ht]
    · intro b hb
      simp [ht] at hb
      subst hb
      exact ⟨rfl, by simp [ht]⟩

/-- Claim C7: for every configuration, when the liveness probe issued right
after constructing the backend fails, `CreateClient` never returns a
client, and every backend it constructed has been closed, with the
top-level result a connection error wrapping the probe error. -/
theorem probe_failure_fails_closed (f : Factory) (tlsErr : Option GoError) (e : GoError) :
    (∀ cl, (Factory.CreateClient f tlsErr (some e)).1 ≠ .ok cl) ∧
    (∀ b, (Factory.CreateClient f tlsErr (some e)).2 = some b →
      b.closed = true ∧
      ∃ msg, (Factory.CreateClient f tlsErr (some e)).1 = .error (.wrapped msg e)) := by
  unfold Factory.CreateClient
  by_cases h1 : f.config.mode = ModeSingle
  · simp only [h1, if_true]
    refine ⟨(createSingle_ping_fail f tlsErr e).1, fun b hb => ?_⟩
    have h := (createSingle_ping_fail f tlsErr e).2 b hb
    exact ⟨h.1, "failed to connect to redis", h.2⟩
  · by_cases h2 : f.config.mode = ModeCluster
    · simp only [h1, h2, if_false, if_true]
      refine ⟨(createCluster_ping_fail f tlsErr e).1, fun b hb => ?_⟩
      have h := (createCluster_ping_fail f tlsErr e).2 b hb
      exact ⟨h.1, "failed to connect to redis cluster", h.2⟩
    · by_cases h3 : f.config.mode = ModeSentinel
      · simp only [h1, h2, h3, if_false, if_true]
        refine ⟨(createSentinel_ping_fail f tlsErr e).1, fun b hb => ?_⟩
        have h := (createSentinel_ping_fail f tlsErr e).2 b hb
        exact ⟨h.1, "failed to connect to redis sentinel", h.2⟩
      · simp only [h1, h2, h3, if_false]
        refine ⟨fun cl => by simp, fun b hb => by simp at hb⟩

/-- Witness for C7: the default configuration with a refused connection
leaves a closed single-node backend and a wrapped connection error. -/
theorem probe_failure_fails_closed_witness :
    downBackend.closed = true ∧
    ∃ msg, (Factory.CreateClient { config := DefaultConfig } none
      (some (GoError.other "connection refused"))).1 =
        .error (.wrapped msg (.other "connection refused")) :=
  (probe_failure_fails_closed { config := DefaultConfig } none
    (.other "connection refused")).2 downBackend (by decide)

/-- The MSet pair-prefixing loop, characterized: it panics exactly when
some even index that still has a following argument holds a non-string;
on success the forwarded list keeps the argument count, and for an odd
count its final slot is the untouched nil zero value. -/
theorem msetPrefixedPairs_spec (c : Config) :
    ∀ pairs : List GoVal,
      (msetPrefixedPairs c pairs = none ↔
        ∃ i, i % 2 = 0 ∧ i + 1 < pairs.length ∧
          ∀ s, pairs[i]? ≠ some (GoVal.str s)) ∧
      (∀ out, msetPrefixedPairs c pairs = some out →
        out.length = pairs.length ∧
        (pairs.length % 2 = 1 → ∃ front, out = front ++ [none]))
  | [] => by
    refine ⟨?_, ?_⟩
    · constructor
      · intro h
        simp [msetPrefixedPairs] at h
      · rintro ⟨i, _, hlen, _⟩
        exfalso
        simp at hlen
    · intro out h
      simp [msetPrefixedPairs] at h
      subst h
      simp
  | [x] => by
    refine ⟨?_, ?_⟩
    · constructor
      · intro h
        simp [msetPrefixedPairs] at h
      · rintro ⟨i, _, hlen, _⟩
        exfalso
        simp at hlen
    · intro out h
      simp [msetPrefixedPairs] at h
      subst h
      refine ⟨rfl, fun _ => ⟨[], rfl⟩⟩
  | k :: v :: rest => by
    have IH := msetPrefixedPairs_spec c rest
    cases k with
    | int n =>
      refine ⟨?_, ?_⟩
      · constructor
        · intro _
          refine ⟨0, by omega, by simp, fun s => by simp⟩
        · intro _
          rfl
      · intro out h
        simp [msetPrefixedPairs] at h
    | str s =>
      refine ⟨?_, ?_⟩
      · constructor
        · intro h
          simp only [msetPrefixedPairs, Option.map_eq_none'] at h
          obtain ⟨i, hi, hlen, hne⟩ := IH.1.mp h
          refine ⟨i + 2, by omega, by simp; omega, fun t => ?_⟩
          simpa using hne t
        · rintro ⟨i, hi, hlen, hne⟩
          match i with
          | 0 =>
            exfalso
            exact hne s (by simp)
          | 1 => exact absurd hi (by omega)
          | (j + 2) =>
            have hj : rest.length > j + 1 := by
              simp at hlen
              omega
            have := IH.1.mpr ⟨j, by omega, by omega, fun t => by simpa using hne t⟩
            simp only [msetPrefixedPairs, Option.map_eq_none', this]
      · intro out h
        simp only [msetPrefixedPairs, Option.map_eq_some'] at h
        obtain ⟨r, hr, hout⟩ := h
        obtain ⟨hlen, hodd⟩ := IH.2 r hr
        subst hout
        refine ⟨by simp [hlen], fun hoddLen => ?_⟩
        simp at hoddLen
        obtain ⟨front, hfront⟩ := hodd (by omega)
        subst hfront
        exact ⟨some (GoVal.str (Config.prefixedKey c s)) :: some v :: front, by simp⟩

/-- Claim C9 counterexample: `MSet` called with the single non-string
argument 42 (a non-string at even index 0) does NOT panic: the loop's
`i+1 < len(pairs)` guard skips the final element of an odd-length argument
list before the type assertion, and forwards a one-element list holding
nil. -/
theorem mset_single_nonstring_no_panic_cex :
    msetPrefixedPairs DefaultConfig [GoVal.int 42] = some [none] ∧
    msetPrefixedPairs DefaultConfig [GoVal.int 42] ≠ none :=
  ⟨rfl, by decide⟩

/-- Claim C9 (amended): an argument at an even index is type-asserted to a
string only when a further argument follows it — the call panics iff some
even index with a following argument holds a non-string; when the argument
count is odd the final element of the forwarded pair list is never written
and is left as a nil value (and the forwarded list keeps the argument
count). -/
theorem mset_assertion_guarded (c : Config) (pairs : List GoVal) :
    (msetPrefixedPairs c pairs = none ↔
      ∃ i, i % 2 = 0 ∧ i + 1 < pairs.length ∧
        ∀ s, pairs[i]? ≠ some (GoVal.str s)) ∧
    (∀ out, msetPrefixedPairs c pairs = some out →
      out.length = pairs.length ∧
      (pairs.length % 2 = 1 → ∃ front, out = front ++ [none])) :=
  msetPrefixedPairs_spec c pairs

/-- Witness for C9: a non-string at even index 0 followed by another
argument panics; an odd-length argument list with string keys is forwarded
with its final slot nil. -/
theorem mset_assertion_guarded_witness :
    msetPrefixedPairs DefaultConfig [GoVal.int 5, GoVal.str "x"] = none ∧
    ([some (GoVal.str "a"), some (GoVal.int 7), (none : Option GoVal)].length =
      [GoVal.str "a", GoVal.int 7, GoVal.int 9].length ∧
     ∃ front, [some (GoVal.str "a"), some (GoVal.int 7), (none : Option GoVal)] =
       front ++ [none]) :=
  ⟨(mset_assertion_guarded DefaultConfig [GoVal.int 5, GoVal.str "x"]).1.mpr
      ⟨0, rfl, by decide, fun s => by simp⟩,
   (fun h => ⟨h.1, h.2 (by decide)⟩)
     ((mset_assertion_guarded DefaultConfig
        [GoVal.str "a", GoVal.int 7, GoVal.int 9]).2
       [some (GoVal.str "a"), some (GoVal.int 7), none] rfl)⟩

end Cache
